import Mathlib

/-!
Verification of the Parking-Ticket billing and ticket-lifecycle engine.

The development shallowly embeds the JavaScript core:
  * `src/utils/calculatePrice.js` — duration and fee calculation,
  * `src/utils/qrCodeUtils.js`   — QR payload codec,
  * the AsyncStorage-backed ticket repository (`addTicket`, `closeTicket`,
    `deleteHistoryTicket`) and the `handleSave` ticket-opening flow.

Modelling conventions:
  * Instants are integers (milliseconds since the epoch), wrapped in `Option`:
    `none` stands for a string that `new Date(...)` cannot parse (`NaN` time).
  * JavaScript numbers are embedded as exact rationals `Rat`; for the integer
    ranges a `Date` can produce, `Math.floor`/`Math.ceil` of a quotient agree
    with the exact rational floor/ceiling.
  * The QR transport text is modelled at the level of parsed JSON values:
    an input string is `none` when `JSON.parse` would throw, `some j`
    otherwise.  A caught exception (the `catch` branch returning `null`)
    is the `none` result.
  * AsyncStorage is a record of the two persisted collections; each `setItem`
    call consumes a `Bool` oracle telling whether that write succeeds.
    Operations return, besides their result, the final persisted state and
    the list of persisted snapshots after each attempted write.
-/

/-- Parsed JSON values, the result type of a successful `JSON.parse`. -/
inductive Json where
  | null
  | bool (b : Bool)
  | num (q : Rat)
  | str (s : String)
  | arr (elems : List Json)
  | obj (fields : List (String × Json))

/-- JavaScript property access `j.k`: a lookup on objects, `undefined`
(here `none`) on every other value. -/
def Json.getField : Json → String → Option Json
  | .obj fields, key => (fields.find? (fun p => p.1 == key)).map (fun p => p.2)
  | _, _ => none

/-- JavaScript truthiness of a possibly-`undefined` value: `undefined`,
`null`, `false`, `0` and `""` are falsy, everything else is truthy. -/
def jsTruthy : Option Json → Bool
  | none => false
  | some .null => false
  | some (.bool b) => b
  | some (.num q) => q != 0
  | some (.str s) => s != ""
  | some (.arr _) => true
  | some (.obj _) => true

/-- A stored ticket.  Active tickets have `exitTime = none` and
`totalAmount = none`; closing fills both and flips `status`. -/
structure Ticket where
  id : String
  parkingName : String
  entryTime : String
  pricePerHour : Rat
  status : String
  createdAt : String
  qrCodeData : Json
  exitTime : Option String
  totalAmount : Option Rat

/-- `createQRCodeData` from `qrCodeUtils.js`: builds the QR payload object
`{id, parkingName, entryTime, pricePerHour, timestamp}` from the ticket.
`now` is the `new Date().toISOString()` stamp taken at call time. -/
def createQRCodeData (ticket : Ticket) (now : String) : Json :=
  .obj [("id", .str ticket.id),
        ("parkingName", .str ticket.parkingName),
        ("entryTime", .str ticket.entryTime),
        ("pricePerHour", .num ticket.pricePerHour),
        ("timestamp", .str now)]

/-- `parseQRCodeData` from `qrCodeUtils.js`.  The argument is the outcome of
`JSON.parse` on the scanned text: `none` when parsing threw (the `catch`
returns `null`).  The source then rejects the payload when `!parsed.id`,
`!parsed.parkingName`, `!parsed.entryTime` or
`parsed.pricePerHour === undefined`.  (When the parsed value is the JSON
literal `null`, the property access itself throws and the `catch` returns
`null`; the modelled lookup returns `undefined` there, which is rejected the
same way.) -/
def parseQRCodeData (scannedData : Option Json) : Option Json :=
  match scannedData with
  | none => none
  | some parsed =>
      if !jsTruthy (parsed.getField "id")
          || !jsTruthy (parsed.getField "parkingName")
          || !jsTruthy (parsed.getField "entryTime")
          || (parsed.getField "pricePerHour").isNone then
        none
      else
        some parsed

/-- `calculateDuration` from `calculatePrice.js`: minutes between two
instants.  An argument is `none` when `new Date(...)` on the string yields an
invalid date, in which case the function returns `0`.  Otherwise it is
`Math.max(0, Math.floor((exit - entry) / 60000))` on millisecond stamps. -/
def calculateDuration (entryTime exitTime : Option Int) : Int :=
  match entryTime, exitTime with
  | some entry, some exit =>
      max 0 ⌊((exit - entry : Int) : Rat) / 60000⌋
  | _, _ => 0

/-- `calculatePrice` from `calculatePrice.js`: `0` for a zero duration,
otherwise `Math.ceil(durationMinutes / 60) * pricePerHour`. -/
def calculatePrice (entryTime exitTime : Option Int) (pricePerHour : Rat) : Rat :=
  let durationMinutes := calculateDuration entryTime exitTime
  if durationMinutes = 0 then
    0
  else
    (⌈(durationMinutes : Rat) / 60⌉ : Rat) * pricePerHour

/-- Evaluate the duration of a stay given as an exact millisecond delta. -/
lemma calculateDuration_delta (t d : Int) :
    calculateDuration (some t) (some (t + d)) = max 0 ⌊(d : Rat) / 60000⌋ := by
  have h : (t + d - t : Int) = d := by ring
  simp only [calculateDuration, h]

/-- Evaluate `calculatePrice` from a known nonzero duration and a known
ceiling of the billed hours. -/
lemma calculatePrice_of_duration (e x : Option Int) (r : Rat) (d n : Int)
    (hd : calculateDuration e x = d) (hne : d ≠ 0)
    (hn : (⌈(d : Rat) / 60⌉ : Int) = n) :
    calculatePrice e x r = (n : Rat) * r := by
  simp only [calculatePrice, hd]
  rw [if_neg hne, hn]

/-- C1: `calculatePrice` returns `0` when the computed duration is `0`
minutes and `ceil(durationMinutes / 60) * rate` otherwise; with a positive
rate, a 1-minute stay (60000 ms) and a 60-minute stay each cost exactly
`rate` (the 60-minute boundary bills one hour, not two), and a 61-minute
stay costs exactly `2 * rate`. -/
theorem calculatePrice_hour_boundary (entryTime exitTime : Option Int) (rate : Rat)
    (hrate : 0 < rate) :
    (calculateDuration entryTime exitTime = 0 → calculatePrice entryTime exitTime rate = 0) ∧
    (calculateDuration entryTime exitTime ≠ 0 →
      calculatePrice entryTime exitTime rate =
        (⌈(calculateDuration entryTime exitTime : Rat) / 60⌉ : Rat) * rate) ∧
    (∀ t : Int,
      calculatePrice (some t) (some (t + 60000)) rate = rate ∧
      calculatePrice (some t) (some (t + 3600000)) rate = rate ∧
      calculatePrice (some t) (some (t + 3660000)) rate = 2 * rate) := by
  refine ⟨fun h => by simp [calculatePrice, h], fun h => by simp [calculatePrice, h], fun t => ?_⟩
  have e1 : calculateDuration (some t) (some (t + 60000)) = 1 := by
    rw [calculateDuration_delta, show ((60000 : Int) : Rat) / 60000 = 1 by norm_num]
    norm_num
  have e60 : calculateDuration (some t) (some (t + 3600000)) = 60 := by
    rw [calculateDuration_delta, show ((3600000 : Int) : Rat) / 60000 = 60 by norm_num]
    norm_num
  have e61 : calculateDuration (some t) (some (t + 3660000)) = 61 := by
    rw [calculateDuration_delta, show ((3660000 : Int) : Rat) / 60000 = 61 by norm_num]
    norm_num
  refine ⟨?_, ?_, ?_⟩
  · have h := calculatePrice_of_duration _ _ rate 1 1 e1 (by decide)
      (by norm_num [Int.ceil_eq_iff])
    simpa using h
  · have h := calculatePrice_of_duration _ _ rate 60 1 e60 (by decide)
      (by norm_num)
    simpa using h
  · have h := calculatePrice_of_duration _ _ rate 61 2 e61 (by decide)
      (by norm_num [Int.ceil_eq_iff])
    simpa using h

/-- C1 witness: concrete instance at `rate = 50`. -/
theorem calculatePrice_hour_boundary_witness :
    (0 : Rat) < 50 ∧
    (calculatePrice (some 0) (some 60000) 50 = 50 ∧
     calculatePrice (some 0) (some 3600000) 50 = 50 ∧
     calculatePrice (some 0) (some 3660000) 50 = 2 * 50) := by
  refine ⟨by decide, ?_⟩
  have h := (calculatePrice_hour_boundary (some 0) (some 60000) 50 (by decide)).2.2 0
  simpa using h

/-- C2: `calculateDuration` is total (never raises); it returns
`⌊(exit - entry) / 60000⌋` minutes (instants are millisecond stamps, so
60 s = 60000 ms) when both instants parse and `entry ≤ exit`, returns `0`
whenever `exit ≤ entry`, and returns `0` whenever either input is
unparseable. -/
theorem calculateDuration_floor_clamp (entryTime exitTime : Option Int) :
    (∀ a b : Int, entryTime = some a → exitTime = some b → a ≤ b →
      calculateDuration entryTime exitTime = ⌊((b - a : Int) : Rat) / 60000⌋) ∧
    (∀ a b : Int, entryTime = some a → exitTime = some b → b ≤ a →
      calculateDuration entryTime exitTime = 0) ∧
    ((entryTime = none ∨ exitTime = none) → calculateDuration entryTime exitTime = 0) := by
  refine ⟨?_, ?_, ?_⟩
  · rintro a b rfl rfl hab
    have hq : (0 : Rat) ≤ ((b - a : Int) : Rat) := by exact_mod_cast sub_nonneg.mpr hab
    have hfl : (0 : Int) ≤ ⌊((b - a : Int) : Rat) / 60000⌋ :=
      Int.floor_nonneg.mpr (div_nonneg hq (by norm_num))
    simpa [calculateDuration] using max_eq_right hfl
  · rintro a b rfl rfl hba
    have hq : ((b - a : Int) : Rat) ≤ 0 := by exact_mod_cast sub_nonpos.mpr hba
    have hdiv : ((b - a : Int) : Rat) / 60000 ≤ 0 :=
      div_nonpos_iff.mpr (Or.inr ⟨hq, by norm_num⟩)
    have hfl : ⌊((b - a : Int) : Rat) / 60000⌋ ≤ 0 := Int.floor_nonpos hdiv
    simpa [calculateDuration] using max_eq_left hfl
  · rintro (rfl | rfl)
    · simp [calculateDuration]
    · cases entryTime <;> simp [calculateDuration]

/-- C2 witness: concrete instances of all three cases. -/
theorem calculateDuration_floor_clamp_witness :
    ((0 : Int) ≤ 120000 ∧
      calculateDuration (some 0) (some 120000) = ⌊((120000 - 0 : Int) : Rat) / 60000⌋) ∧
    ((-60000 : Int) ≤ 0 ∧ calculateDuration (some 0) (some (-60000)) = 0) ∧
    calculateDuration (some 0) none = 0 := by
  refine ⟨⟨by decide, ?_⟩, ⟨by decide, ?_⟩, ?_⟩
  · exact (calculateDuration_floor_clamp (some 0) (some 120000)).1 0 120000 rfl rfl (by decide)
  · exact (calculateDuration_floor_clamp (some 0) (some (-60000))).2.1 0 (-60000) rfl rfl
      (by decide)
  · exact (calculateDuration_floor_clamp (some 0) none).2.2 (Or.inr rfl)

/-- C3: `parseQRCodeData` returns the invalid result (`null`, here `none`)
without raising when the text fails to parse and when any of `id`,
`parkingName`, `entryTime`, `pricePerHour` is missing from the parsed
payload; and a payload whose `pricePerHour` is the number `0` is accepted
when the other three required fields are present (and truthy), so absence is
distinguished from present-and-zero. -/
theorem parseQRCodeData_invalid_and_zero_rate (raw : Option Json) :
    (raw = none → parseQRCodeData raw = none) ∧
    (∀ j : Json, raw = some j →
      (j.getField "id" = none ∨ j.getField "parkingName" = none ∨
        j.getField "entryTime" = none ∨ j.getField "pricePerHour" = none) →
      parseQRCodeData raw = none) ∧
    (∀ j : Json, raw = some j →
      jsTruthy (j.getField "id") = true →
      jsTruthy (j.getField "parkingName") = true →
      jsTruthy (j.getField "entryTime") = true →
      j.getField "pricePerHour" = some (Json.num 0) →
      parseQRCodeData raw = some j) := by
  refine ⟨fun h => by simp [parseQRCodeData, h], ?_, ?_⟩
  · rintro j rfl (h | h | h | h) <;> simp [parseQRCodeData, h, jsTruthy]
  · rintro j rfl h1 h2 h3 h4
    simp [parseQRCodeData, h1, h2, h3, h4]

/-- Payload used by the codec witnesses: all four required fields present,
with a zero hourly rate. -/
def zeroRatePayload : Json :=
  .obj [("id", .str "a"), ("parkingName", .str "b"),
        ("entryTime", .str "c"), ("pricePerHour", .num 0)]

/-- Payload missing `pricePerHour`. -/
def noRatePayload : Json :=
  .obj [("id", .str "a"), ("parkingName", .str "b"), ("entryTime", .str "c")]

/-- C3 witness: the three cases at concrete payloads. -/
theorem parseQRCodeData_invalid_and_zero_rate_witness :
    parseQRCodeData none = none ∧
    parseQRCodeData (some noRatePayload) = none ∧
    parseQRCodeData (some zeroRatePayload) = some zeroRatePayload := by
  refine ⟨(parseQRCodeData_invalid_and_zero_rate none).1 rfl, ?_, ?_⟩
  · exact (parseQRCodeData_invalid_and_zero_rate (some noRatePayload)).2.1 noRatePayload rfl
      (Or.inr (Or.inr (Or.inr rfl)))
  · exact (parseQRCodeData_invalid_and_zero_rate (some zeroRatePayload)).2.2 zeroRatePayload
      rfl rfl rfl rfl rfl

/-- C4: decoding an encoded ticket succeeds (is not invalid) and recovers
`id`, `parkingName`, `entryTime` and `pricePerHour` exactly equal to the
source ticket's fields, for any ticket whose `id`, `parkingName` and
`entryTime` are non-empty strings (`pricePerHour` is a number by typing). -/
theorem qrCode_roundtrip (t : Ticket) (now : String)
    (hid : t.id ≠ "") (hname : t.parkingName ≠ "") (hentry : t.entryTime ≠ "") :
    parseQRCodeData (some (createQRCodeData t now)) = some (createQRCodeData t now) ∧
    (createQRCodeData t now).getField "id" = some (.str t.id) ∧
    (createQRCodeData t now).getField "parkingName" = some (.str t.parkingName) ∧
    (createQRCodeData t now).getField "entryTime" = some (.str t.entryTime) ∧
    (createQRCodeData t now).getField "pricePerHour" = some (.num t.pricePerHour) := by
  have gid : (createQRCodeData t now).getField "id" = some (.str t.id) := by
    simp [createQRCodeData, Json.getField]
  have gname : (createQRCodeData t now).getField "parkingName" = some (.str t.parkingName) := by
    simp [createQRCodeData, Json.getField]
  have gentry : (createQRCodeData t now).getField "entryTime" = some (.str t.entryTime) := by
    simp [createQRCodeData, Json.getField]
  have gprice : (createQRCodeData t now).getField "pricePerHour" =
      some (.num t.pricePerHour) := by
    simp [createQRCodeData, Json.getField]
  refine ⟨?_, gid, gname, gentry, gprice⟩
  simp [parseQRCodeData, gid, gname, gentry, gprice, jsTruthy, hid, hname, hentry]

/-- Sample active ticket used by witnesses. -/
def sampleTicket : Ticket :=
  { id := "t1", parkingName := "Central Lot",
    entryTime := "2025-01-20T14:30:00.000Z", pricePerHour := 50,
    status := "active", createdAt := "2025-01-20T14:30:00.000Z",
    qrCodeData := Json.null, exitTime := none, totalAmount := none }

/-- C4 witness: round trip at a concrete ticket. -/
theorem qrCode_roundtrip_witness :
    sampleTicket.id ≠ "" ∧
    parseQRCodeData (some (createQRCodeData sampleTicket "2025-01-20T14:30:01.000Z")) =
      some (createQRCodeData sampleTicket "2025-01-20T14:30:01.000Z") := by
  refine ⟨by decide, ?_⟩
  exact (qrCode_roundtrip sampleTicket "2025-01-20T14:30:01.000Z"
    (by decide) (by decide) (by decide)).1

/-- The persisted AsyncStorage state: the two collections stored under
`ACTIVE_TICKETS_KEY` and `HISTORY_TICKETS_KEY`. -/
structure Storage where
  activeTickets : List Ticket
  historyTickets : List Ticket

/-- `getActiveTickets`: read the active collection (successful read). -/
def getActiveTickets (s : Storage) : List Ticket :=
  s.activeTickets

/-- `getHistoryTickets`: read the historical collection (successful read). -/
def getHistoryTickets (s : Storage) : List Ticket :=
  s.historyTickets

/-- `saveActiveTickets`: attempt to write the active collection.  `writeOk`
is the storage oracle: on `true` the write lands and the call returns
`true`; on `false` (`setItem` rejected) the persisted state is unchanged and
the `catch` branch returns `false`. -/
def saveActiveTickets (s : Storage) (tickets : List Ticket) (writeOk : Bool) :
    Bool × Storage :=
  if writeOk then (true, { s with activeTickets := tickets }) else (false, s)

/-- `saveHistoryTickets`: attempt to write the historical collection;
same write-oracle convention as `saveActiveTickets`. -/
def saveHistoryTickets (s : Storage) (tickets : List Ticket) (writeOk : Bool) :
    Bool × Storage :=
  if writeOk then (true, { s with historyTickets := tickets }) else (false, s)

/-- The caller-supplied part of a new ticket
(`{parkingName, entryTime, pricePerHour}` built in `handleSave`). -/
structure NewTicket where
  parkingName : String
  entryTime : String
  pricePerHour : Rat

/-- `addTicket`: stamps the incoming ticket with a fresh id (`newId` stands
for the `generateTicketId()` draw), `status = "active"` and
`createdAt = now`, then attaches the QR payload (`qrNow` is the
`toISOString()` stamp taken inside `createQRCodeData`), appends to the
active collection and saves.  Returns the created ticket on a successful
write and `null` (`none`) otherwise, together with the final persisted state
and the snapshots after each attempted write. -/
def addTicket (s : Storage) (ticket : NewTicket) (newId now qrNow : String)
    (writeOk : Bool) : Option Ticket × Storage × List Storage :=
  let ticketBase : Ticket :=
    { id := newId, parkingName := ticket.parkingName,
      entryTime := ticket.entryTime, pricePerHour := ticket.pricePerHour,
      status := "active", createdAt := now,
      qrCodeData := Json.null, exitTime := none, totalAmount := none }
  let ticketWithId : Ticket :=
    { ticketBase with qrCodeData := createQRCodeData ticketBase qrNow }
  let tickets := getActiveTickets s
  let saveRes := saveActiveTickets s (tickets ++ [ticketWithId]) writeOk
  (if saveRes.1 then some ticketWithId else none, saveRes.2, [saveRes.2])

/-- `deleteHistoryTicket`: filter the id out of the historical collection
and save it back, returning the save outcome.  The active collection is
never read or written. -/
def deleteHistoryTicket (s : Storage) (ticketId : String) (writeOk : Bool) :
    Bool × Storage :=
  let historyTickets := getHistoryTickets s
  let filteredTickets := historyTickets.filter (fun t => t.id != ticketId)
  saveHistoryTickets s filteredTickets writeOk

/-- `closeTicket`: look the id up in the active collection only
(`findIndex`; the source's `ticketIndex === -1` test is the negation of the
`findIdx < length` guard here), and return `false` if not found.  Otherwise
build the closed record (spread of the active record plus `exitTime`,
`totalAmount`, `status = "closed"`), splice it out of the active collection,
save the active collection, then append the closed record to the historical
collection and save it — the results of both saves are discarded — and
return `true`. -/
def closeTicket (s : Storage) (ticketId exitTime : String) (totalAmount : Rat)
    (writeActiveOk writeHistoryOk : Bool) : Bool × Storage × List Storage :=
  let activeTickets := getActiveTickets s
  let ticketIndex := activeTickets.findIdx (fun t => t.id == ticketId)
  if h : ticketIndex < activeTickets.length then
    let closedTicket : Ticket :=
      { activeTickets[ticketIndex] with
        exitTime := some exitTime, totalAmount := some totalAmount,
        status := "closed" }
    let newActive := activeTickets.eraseIdx ticketIndex
    let res1 := saveActiveTickets s newActive writeActiveOk
    let historyTickets := getHistoryTickets res1.2
    let res2 := saveHistoryTickets res1.2 (historyTickets ++ [closedTicket]) writeHistoryOk
    (true, res2.2, [res1.2, res2.2])
  else
    (false, s, [])

/-- JavaScript `String.prototype.trim`: strip leading and trailing
whitespace (modelled over the character list). -/
def trimString (s : String) : String :=
  String.mk (((s.data.dropWhile Char.isWhitespace).reverse.dropWhile
    Char.isWhitespace).reverse)

/-- Outcome of the `handleSave` ticket-opening flow. -/
inductive SaveResult where
  | validationError (message : String)
  | creationFailed
  | created (ticket : Ticket)

/-- `handleSave` from the new-ticket screen: validates the parking name
(empty after `trim` is rejected), the rate (`parseInt` result, modelled as
`Option Int` with `none` for `NaN`; non-positive rejected) and the custom
entry time, each rejection raising an alert and returning before any
persistence attempt; then builds the new ticket and hands it to
`addTicket`. -/
def handleSave (s : Storage) (parkingName : String) (price : Option Int)
    (useCurrentTime : Bool) (entryTime : String) (now newId qrNow : String)
    (writeOk : Bool) : SaveResult × Storage × List Storage :=
  if trimString parkingName = "" then
    (.validationError "Veuillez entrer le nom du parking", s, [])
  else
    match price with
    | none => (.validationError "Veuillez entrer un tarif valide (supérieur à 0)", s, [])
    | some p =>
      if p ≤ 0 then
        (.validationError "Veuillez entrer un tarif valide (supérieur à 0)", s, [])
      else if !useCurrentTime && entryTime = "" then
        (.validationError "Veuillez entrer une heure d'entrée", s, [])
      else
        let newTicket : NewTicket :=
          { parkingName := trimString parkingName,
            entryTime := if useCurrentTime then now else entryTime,
            pricePerHour := (p : Rat) }
        match addTicket s newTicket newId now qrNow writeOk with
        | (some t, s1, trace) => (.created t, s1, trace)
        | (none, s1, trace) => (.creationFailed, s1, trace)

/-- `findIdx` returns the length when nothing matches. -/
lemma findIdx_of_not_found {α : Type} (p : α → Bool) (L : List α)
    (h : ∀ u ∈ L, p u = false) : L.findIdx p = L.length := by
  induction L with
  | nil => simp
  | cons a L ih =>
      have ha : p a = false := h a (by simp)
      have ih2 := ih fun u hu => h u (by simp [hu])
      simp [List.findIdx_cons, ha, ih2]

/-- `findIdx` finds the first match, located after a match-free prefix. -/
lemma findIdx_prefix_cons {α : Type} (p : α → Bool) (A B : List α) (t : α)
    (hA : ∀ u ∈ A, p u = false) (ht : p t = true) :
    (A ++ t :: B).findIdx p = A.length := by
  induction A with
  | nil => simp [List.findIdx_cons, ht]
  | cons a A ih =>
      have ha : p a = false := hA a (by simp)
      have ih2 := ih fun u hu => hA u (by simp [hu])
      simp [List.findIdx_cons, ha, ih2]

/-- The element at the head position after a prefix. -/
lemma getElem_prefix_cons {α : Type} (A B : List α) (t : α)
    (h : A.length < (A ++ t :: B).length) : (A ++ t :: B)[A.length] = t := by
  induction A with
  | nil => simp
  | cons a A ih => simpa using ih (by simpa using h)

/-- Erasing at the position right after a prefix drops the listed element. -/
lemma eraseIdx_prefix_cons {α : Type} (A B : List α) (t : α) :
    (A ++ t :: B).eraseIdx A.length = A ++ B := by
  induction A with
  | nil => simp
  | cons a A ih => simpa using ih

/-- C6: for every id not present in the active collection — in particular an
id present only in the historical collection, hence for a second close of an
already-closed ticket — `closeTicket` returns the failure result `false`
without raising, attempts no write, and leaves both persisted collections
unchanged; the lookup consults the active collection only. -/
theorem closeTicket_not_found (s : Storage) (ticketId exitTime : String)
    (totalAmount : Rat) (wA wH : Bool)
    (h : ∀ u ∈ s.activeTickets, u.id ≠ ticketId) :
    closeTicket s ticketId exitTime totalAmount wA wH = (false, s, []) := by
  have hp : ∀ u ∈ getActiveTickets s, (fun t : Ticket => t.id == ticketId) u = false := by
    intro u hu
    simpa using h u hu
  have hidx := findIdx_of_not_found _ _ hp
  simp only [closeTicket, hidx]
  rw [dif_neg (lt_irrefl _)]

/-- A closed ticket, as stored in the history. -/
def closedSample : Ticket :=
  { sampleTicket with
    exitTime := some "2025-01-20T16:35:00.000Z",
    totalAmount := some 150, status := "closed" }

/-- A storage state whose only ticket is closed (in the history). -/
def historyOnlyStore : Storage :=
  { activeTickets := [], historyTickets := [closedSample] }

/-- C6 witness: closing an id that only exists in the history fails and
changes nothing. -/
theorem closeTicket_not_found_witness :
    (∀ u ∈ historyOnlyStore.activeTickets, u.id ≠ "t1") ∧
    closeTicket historyOnlyStore "t1" "2025-01-20T17:00:00.000Z" 200 true true
      = (false, historyOnlyStore, []) := by
  refine ⟨by decide, ?_⟩
  exact closeTicket_not_found historyOnlyStore "t1" "2025-01-20T17:00:00.000Z" 200 true true
    (by decide)

/-- C7 counterexample: the history holds only the id `t1`, so `zz` is
absent; yet deleting `zz` returns `true` (success), not a failure result,
and is a no-op on the state. -/
theorem deleteHistoryTicket_absent_id_success :
    historyOnlyStore.historyTickets.map Ticket.id = ["t1"] ∧
    (deleteHistoryTicket historyOnlyStore "zz" true).1 = true ∧
    (deleteHistoryTicket historyOnlyStore "zz" true).2 = historyOnlyStore :=
  ⟨rfl, rfl, rfl⟩

/-- C7 (amended): `deleteHistoryTicket` removes the ticket with the given id
from the historical collection only and never modifies the active
collection; when the id is not present the operation is a no-op on the
collections, but it still rewrites the historical collection and returns the
outcome of that storage write — success when the write succeeds — rather
than a failure result; `false` is returned exactly on a rejected write. -/
theorem deleteHistoryTicket_spec (s : Storage) (ticketId : String) (w : Bool) :
    (deleteHistoryTicket s ticketId w).2.activeTickets = s.activeTickets ∧
    (deleteHistoryTicket s ticketId w).1 = w ∧
    (w = true → (deleteHistoryTicket s ticketId w).2.historyTickets
        = s.historyTickets.filter (fun t => t.id != ticketId)) ∧
    (w = false → (deleteHistoryTicket s ticketId w).2 = s) ∧
    ((∀ u ∈ s.historyTickets, u.id ≠ ticketId) → w = true →
      (deleteHistoryTicket s ticketId w).2 = s) := by
  refine ⟨?_, ?_, ?_, ?_, ?_⟩
  · cases w <;> simp [deleteHistoryTicket, saveHistoryTickets, getHistoryTickets]
  · cases w <;> simp [deleteHistoryTicket, saveHistoryTickets, getHistoryTickets]
  · intro hw
    subst hw
    simp [deleteHistoryTicket, saveHistoryTickets, getHistoryTickets]
  · intro hw
    subst hw
    simp [deleteHistoryTicket, saveHistoryTickets, getHistoryTickets]
  · intro habs hw
    subst hw
    have hfilter : s.historyTickets.filter (fun t => t.id != ticketId) = s.historyTickets := by
      refine List.filter_eq_self.mpr fun u hu => ?_
      simpa using habs u hu
    simp [deleteHistoryTicket, saveHistoryTickets, getHistoryTickets, hfilter]

/-- C7 witness: a present id is filtered out of the history; an absent id
leaves the state unchanged while returning the write outcome. -/
theorem deleteHistoryTicket_spec_witness :
    ((deleteHistoryTicket historyOnlyStore "t1" true).2.historyTickets
        = historyOnlyStore.historyTickets.filter (fun t => t.id != "t1")) ∧
    ((∀ u ∈ historyOnlyStore.historyTickets, u.id ≠ "zz") ∧
      (deleteHistoryTicket historyOnlyStore "zz" true).2 = historyOnlyStore) := by
  refine ⟨(deleteHistoryTicket_spec historyOnlyStore "t1" true).2.2.1 rfl, by decide, ?_⟩
  exact (deleteHistoryTicket_spec historyOnlyStore "zz" true).2.2.2.2 (by decide) rfl

/-- The closed record built inside `closeTicket`: a spread of the active
record with `exitTime`, `totalAmount` and `status` set. -/
def closedTicketOf (t : Ticket) (exitTime : String) (totalAmount : Rat) : Ticket :=
  { t with
    exitTime := some exitTime, totalAmount := some totalAmount,
    status := "closed" }

/-- Computation of a found `closeTicket` with both writes succeeding: the
shrunken active collection is persisted first, then the closed record is
appended to the history and persisted. -/
lemma closeTicket_found_eq (A B : List Ticket) (act hist : List Ticket) (t : Ticket)
    (ticketId exitTime : String) (amt : Rat)
    (hact : act = A ++ t :: B)
    (hA : ∀ u ∈ A, u.id ≠ ticketId) (ht : t.id = ticketId) :
    closeTicket (Storage.mk act hist) ticketId exitTime amt true true =
      (true, Storage.mk (A ++ B) (hist ++ [closedTicketOf t exitTime amt]),
       [Storage.mk (A ++ B) hist,
        Storage.mk (A ++ B) (hist ++ [closedTicketOf t exitTime amt])]) := by
  subst hact
  have hp : ∀ u ∈ A, (fun x : Ticket => x.id == ticketId) u = false := by
    intro u hu
    simpa using hA u hu
  have hidx : (A ++ t :: B).findIdx (fun x : Ticket => x.id == ticketId) = A.length :=
    findIdx_prefix_cons _ A B t hp (by simpa using ht)
  have hlen : A.length < (A ++ t :: B).length := by simp
  simp only [closeTicket, getActiveTickets, getHistoryTickets, hidx]
  rw [dif_pos hlen]
  simp [saveActiveTickets, saveHistoryTickets, getElem_prefix_cons A B t hlen,
    eraseIdx_prefix_cons, closedTicketOf]

/-- C9: when `closeTicket` succeeds, the record appended to the historical
collection is the previously active record with only `exitTime`,
`totalAmount` and `status` (now `"closed"`) added or changed; `id`,
`parkingName`, `pricePerHour`, `entryTime`, `createdAt` and the QR payload
`qrCodeData` are unchanged — in particular the QR payload does not change
when the ticket closes. -/
theorem closeTicket_frame (A B : List Ticket) (s : Storage) (t : Ticket)
    (ticketId exitTime : String) (amt : Rat)
    (hact : s.activeTickets = A ++ t :: B)
    (hA : ∀ u ∈ A, u.id ≠ ticketId) (ht : t.id = ticketId) :
    (closeTicket s ticketId exitTime amt true true).2.1.historyTickets
        = s.historyTickets ++ [closedTicketOf t exitTime amt] ∧
    (closeTicket s ticketId exitTime amt true true).2.1.activeTickets = A ++ B ∧
    (closedTicketOf t exitTime amt).id = t.id ∧
    (closedTicketOf t exitTime amt).parkingName = t.parkingName ∧
    (closedTicketOf t exitTime amt).pricePerHour = t.pricePerHour ∧
    (closedTicketOf t exitTime amt).entryTime = t.entryTime ∧
    (closedTicketOf t exitTime amt).createdAt = t.createdAt ∧
    (closedTicketOf t exitTime amt).qrCodeData = t.qrCodeData ∧
    (closedTicketOf t exitTime amt).exitTime = some exitTime ∧
    (closedTicketOf t exitTime amt).totalAmount = some amt ∧
    (closedTicketOf t exitTime amt).status = "closed" := by
  obtain ⟨act, hist⟩ := s
  simp only at hact
  rw [closeTicket_found_eq A B act hist t ticketId exitTime amt hact hA ht]
  simp [closedTicketOf]

/-- A storage state whose only ticket is active. -/
def activeStore : Storage :=
  { activeTickets := [sampleTicket], historyTickets := [] }

/-- C9 witness: closing the sample active ticket appends exactly its closed
copy to the history. -/
theorem closeTicket_frame_witness :
    activeStore.activeTickets = [] ++ sampleTicket :: [] ∧
    (closeTicket activeStore "t1" "2025-01-20T16:35:00.000Z" 150 true true).2.1.historyTickets
      = activeStore.historyTickets
        ++ [closedTicketOf sampleTicket "2025-01-20T16:35:00.000Z" 150] ∧
    (closedTicketOf sampleTicket "2025-01-20T16:35:00.000Z" 150).qrCodeData
      = sampleTicket.qrCodeData := by
  have h := closeTicket_frame [] [] activeStore sampleTicket "t1"
    "2025-01-20T16:35:00.000Z" 150 rfl (by decide) rfl
  exact ⟨rfl, h.1, h.2.2.2.2.2.2.2.1⟩

/-- C10: inside `closeTicket` the shrunken active collection is persisted
before the closed record is appended to and persisted in the historical
collection; consequently every successful close passes through an
intermediate persisted state — the first of the two write snapshots — in
which the ticket belongs to neither collection. -/
theorem closeTicket_intermediate_state (A B : List Ticket) (s : Storage) (t : Ticket)
    (ticketId exitTime : String) (amt : Rat)
    (hact : s.activeTickets = A ++ t :: B)
    (hA : ∀ u ∈ A, u.id ≠ ticketId) (ht : t.id = ticketId)
    (hB : ∀ u ∈ B, u.id ≠ ticketId)
    (hH : ∀ u ∈ s.historyTickets, u.id ≠ ticketId) :
    ∃ s1 s2 : Storage,
      (closeTicket s ticketId exitTime amt true true).2.2 = [s1, s2] ∧
      (closeTicket s ticketId exitTime amt true true).2.1 = s2 ∧
      s1.activeTickets = A ++ B ∧
      s1.historyTickets = s.historyTickets ∧
      (∀ u ∈ s1.activeTickets, u.id ≠ ticketId) ∧
      (∀ u ∈ s1.historyTickets, u.id ≠ ticketId) ∧
      s2.activeTickets = s1.activeTickets ∧
      s2.historyTickets = s1.historyTickets ++ [closedTicketOf t exitTime amt] ∧
      (closedTicketOf t exitTime amt).id = ticketId := by
  obtain ⟨act, hist⟩ := s
  simp only at hact hH
  refine ⟨Storage.mk (A ++ B) hist,
    Storage.mk (A ++ B) (hist ++ [closedTicketOf t exitTime amt]), ?_⟩
  rw [closeTicket_found_eq A B act hist t ticketId exitTime amt hact hA ht]
  refine ⟨rfl, rfl, rfl, rfl, ?_, ?_, rfl, rfl, ?_⟩
  · intro u hu
    rcases List.mem_append.mp hu with h | h
    · exact hA u h
    · exact hB u h
  · exact hH
  · simpa [closedTicketOf] using ht

/-- C10 witness: the successful close of the sample ticket exhibits the
intermediate snapshot. -/
theorem closeTicket_intermediate_state_witness :
    activeStore.activeTickets = [] ++ sampleTicket :: [] ∧
    ∃ s1 s2 : Storage,
      (closeTicket activeStore "t1" "2025-01-20T16:35:00.000Z" 150 true true).2.2
        = [s1, s2] ∧
      (closeTicket activeStore "t1" "2025-01-20T16:35:00.000Z" 150 true true).2.1 = s2 ∧
      s1.activeTickets = [] ++ [] ∧
      s1.historyTickets = activeStore.historyTickets ∧
      (∀ u ∈ s1.activeTickets, u.id ≠ "t1") ∧
      (∀ u ∈ s1.historyTickets, u.id ≠ "t1") ∧
      s2.activeTickets = s1.activeTickets ∧
      s2.historyTickets = s1.historyTickets
        ++ [closedTicketOf sampleTicket "2025-01-20T16:35:00.000Z" 150] ∧
      (closedTicketOf sampleTicket "2025-01-20T16:35:00.000Z" 150).id = "t1" := by
  refine ⟨rfl, ?_⟩
  exact closeTicket_intermediate_state [] [] activeStore sampleTicket "t1"
    "2025-01-20T16:35:00.000Z" 150 rfl (by decide) rfl (by decide) (by decide)

/-- C8 counterexample: with the single active ticket `t1` and both storage
writes rejected, `closeTicket` still returns `true`; the rejected writes are
not reported as a failure result to the caller. -/
theorem closeTicket_write_failure_not_reported :
    (closeTicket activeStore "t1" "2025-01-20T16:35:00.000Z" 150 false false).1 = true
      ∧ (closeTicket activeStore "t1" "2025-01-20T16:35:00.000Z" 150 false false).2.1
          = activeStore := ⟨rfl, rfl⟩

/-- C8 (amended): `addTicket` and `deleteHistoryTicket` report a rejected
storage write as a failure result (`null` / `false`) and no error terminates
the caller; `closeTicket`, however, discards the outcomes of its two writes:
whenever the id is found in the active collection it returns `true`, even
when both writes are rejected. -/
theorem persistence_failure_reporting (s : Storage) (nt : NewTicket)
    (newId now qrNow ticketId exitTime : String) (amt : Rat) (wA wH : Bool) :
    (addTicket s nt newId now qrNow false).1 = none ∧
    (deleteHistoryTicket s ticketId false).1 = false ∧
    (s.activeTickets.findIdx (fun u : Ticket => u.id == ticketId)
        < s.activeTickets.length →
      (closeTicket s ticketId exitTime amt wA wH).1 = true) := by
  refine ⟨?_, ?_, ?_⟩
  · simp [addTicket, saveActiveTickets]
  · simp [deleteHistoryTicket, saveHistoryTickets]
  · intro h
    simp only [closeTicket, getActiveTickets]
    rw [dif_pos h]

/-- C8 witness: concrete failed writes for `addTicket` and
`deleteHistoryTicket`, and a concrete found close with both writes
rejected. -/
theorem persistence_failure_reporting_witness :
    (activeStore.activeTickets.findIdx (fun u : Ticket => u.id == "t1")
        < activeStore.activeTickets.length) ∧
    (addTicket activeStore ⟨"Lot B", "2025-01-21T08:00:00.000Z", 25⟩
        "t2" "2025-01-21T08:00:00.000Z" "2025-01-21T08:00:00.000Z" false).1 = none ∧
    (deleteHistoryTicket activeStore "t1" false).1 = false ∧
    (closeTicket activeStore "t1" "2025-01-20T16:35:00.000Z" 150 false false).1 = true := by
  have h := persistence_failure_reporting activeStore
    ⟨"Lot B", "2025-01-21T08:00:00.000Z", 25⟩ "t2" "2025-01-21T08:00:00.000Z"
    "2025-01-21T08:00:00.000Z" "t1" "2025-01-20T16:35:00.000Z" 150 false false
  exact ⟨by decide, h.1, h.2.1, h.2.2 (by decide)⟩

/-- C5: the ticket-opening flow (`handleSave` handing off to `addTicket`)
validates the parking name (empty after trim rejected) and the rate
(unparseable or non-positive rejected): every violating input yields a
validation error reported with the persisted state unchanged and no write
attempted (empty trace); on valid input with a successful write it returns a
fully populated ticket — minted id, `createdAt` stamp, QR payload snapshot,
`status = "active"` — appended to the active collection. -/
theorem handleSave_validates_and_creates (s : Storage) (parkingName : String)
    (price : Option Int) (useCurrentTime : Bool)
    (entryTime now newId qrNow : String) (writeOk : Bool) :
    (trimString parkingName = "" →
      ∃ msg, handleSave s parkingName price useCurrentTime entryTime now newId qrNow writeOk
        = (.validationError msg, s, [])) ∧
    ((price = none ∨ ∃ p : Int, price = some p ∧ p ≤ 0) →
      ∃ msg, handleSave s parkingName price useCurrentTime entryTime now newId qrNow writeOk
        = (.validationError msg, s, [])) ∧
    (∀ p : Int, trimString parkingName ≠ "" → price = some p → 0 < p →
      (useCurrentTime = true ∨ entryTime ≠ "") → writeOk = true →
      ∃ t : Ticket,
        handleSave s parkingName price useCurrentTime entryTime now newId qrNow writeOk
          = (.created t, { s with activeTickets := s.activeTickets ++ [t] },
             [{ s with activeTickets := s.activeTickets ++ [t] }]) ∧
        t.id = newId ∧ t.status = "active" ∧ t.createdAt = now ∧
        t.parkingName = trimString parkingName ∧ t.pricePerHour = (p : Rat) ∧
        t.entryTime = (if useCurrentTime then now else entryTime) ∧
        t.exitTime = none ∧ t.totalAmount = none ∧
        t.qrCodeData = createQRCodeData { t with qrCodeData := Json.null } qrNow) := by
  refine ⟨?_, ?_, ?_⟩
  · intro h
    exact ⟨"Veuillez entrer le nom du parking", by simp [handleSave, h]⟩
  · intro h
    by_cases hname : trimString parkingName = ""
    · exact ⟨"Veuillez entrer le nom du parking", by simp [handleSave, hname]⟩
    · rcases h with h | ⟨p, hp, hple⟩
      · subst h
        exact ⟨"Veuillez entrer un tarif valide (supérieur à 0)",
          by simp [handleSave, hname]⟩
      · subst hp
        exact ⟨"Veuillez entrer un tarif valide (supérieur à 0)",
          by simp [handleSave, hname, hple]⟩
  · intro p hname hp hppos htime hw
    subst hp
    subst hw
    have hple : ¬ p ≤ 0 := not_le.mpr hppos
    have hcond : (!useCurrentTime && decide (entryTime = "")) = false := by
      rcases htime with h | h
      · simp [h]
      · simp [h]
    refine ⟨{ id := newId, parkingName := trimString parkingName,
              entryTime := if useCurrentTime then now else entryTime,
              pricePerHour := (p : Rat), status := "active", createdAt := now,
              qrCodeData := createQRCodeData
                { id := newId, parkingName := trimString parkingName,
                  entryTime := if useCurrentTime then now else entryTime,
                  pricePerHour := (p : Rat), status := "active", createdAt := now,
                  qrCodeData := Json.null, exitTime := none, totalAmount := none } qrNow,
              exitTime := none, totalAmount := none },
      ?_, rfl, rfl, rfl, rfl, rfl, rfl, rfl, rfl, rfl⟩
    simp [handleSave, hname, hple, hcond, addTicket, getActiveTickets, saveActiveTickets]

/-- C5 witness: an empty name is rejected with the state untouched; a valid
input creates and appends a fully populated active ticket. -/
theorem handleSave_validates_and_creates_witness :
    (trimString "  " = "" ∧
      ∃ msg, handleSave activeStore "  " (some 50) true ""
          "2025-01-21T09:00:00.000Z" "t3" "2025-01-21T09:00:01.000Z" true
        = (.validationError msg, activeStore, [])) ∧
    (trimString "Lot C" ≠ "" ∧
      ∃ t : Ticket,
        handleSave activeStore "Lot C" (some 25) true ""
            "2025-01-21T09:00:00.000Z" "t3" "2025-01-21T09:00:01.000Z" true
          = (.created t,
             { activeStore with activeTickets := activeStore.activeTickets ++ [t] },
             [{ activeStore with activeTickets := activeStore.activeTickets ++ [t] }]) ∧
        t.id = "t3" ∧ t.status = "active" ∧ t.createdAt = "2025-01-21T09:00:00.000Z" ∧
        t.parkingName = trimString "Lot C" ∧ t.pricePerHour = ((25 : Int) : Rat) ∧
        t.entryTime = (if true then "2025-01-21T09:00:00.000Z" else "") ∧
        t.exitTime = none ∧ t.totalAmount = none ∧
        t.qrCodeData = createQRCodeData { t with qrCodeData := Json.null } "2025-01-21T09:00:01.000Z") := by
  constructor
  · refine ⟨by decide, ?_⟩
    exact (handleSave_validates_and_creates activeStore "  " (some 50) true ""
      "2025-01-21T09:00:00.000Z" "t3" "2025-01-21T09:00:01.000Z" true).1 (by decide)
  · refine ⟨by decide, ?_⟩
    exact (handleSave_validates_and_creates activeStore "Lot C" (some 25) true ""
      "2025-01-21T09:00:00.000Z" "t3" "2025-01-21T09:00:01.000Z" true).2.2 25
      (by decide) rfl (by decide) (Or.inl rfl) rfl
